import Mathlib

/-!
Verification of the open-codex Provider Registry & Dispatch Bridge.

This file shallowly embeds, in Lean 4, the JavaScript core of the
repository:

* `codex-cli/src/provider-manager.js` — the `ProviderManager` class
  (catalog loading, `convertToRustFormat`, `getEnvKeyInstructions`,
  `getAllProviders`, `getProvider`, `listProviderIds`, `isLMIProvider`,
  `getCleanProviderId`, `generateTOMLConfig`);
* the `LMICLI.addToConfig` merge step of `lmi-cli.js`;
* `model-bridge.js` — the `ModelBridgeService` request/response loop
  (`setupStdioHandling`, `handleRequest`, `handleChatCompletion`,
  `handleListModels`, `handleListProviders`, `sendResponse`, `sendError`)
  together with the JSON serialization (`JSON.stringify` string quoting)
  and an event-loop model of response emission order.

JavaScript objects coming out of `JSON.parse` are modelled as association
lists with distinct keys; JavaScript `undefined` is modelled with
`Option`; machine floats never matter here (the embedded code moves only
strings, booleans and opaque JSON payloads), JSON numbers are modelled as
integers. Theorems about each claim follow the definitions.
-/

namespace OpenCodex

/-! List-level string utilities.

`String.prototype.includes` and `String.prototype.replace` (with a plain,
non-regex pattern string and an empty replacement) are modelled on
`List Char`.  `replace` with a string pattern replaces only the FIRST
occurrence of the pattern, anywhere in the string, and is a no-op when
the pattern does not occur. -/

/-- Substring test: does `pat` occur contiguously inside the list?
Models `String.prototype.includes`. -/
def listContainsSub (pat : List Char) : List Char → Bool
  | [] => decide (pat = [])
  | c :: cs => pat.isPrefixOf (c :: cs) || listContainsSub pat cs

/-- Remove the first occurrence of `pat` (a no-op when `pat` does not
occur).  Models `s.replace(pat, "")` for a non-regex pattern string. -/
def removeFirstSub (pat : List Char) : List Char → List Char
  | [] => []
  | c :: cs =>
    if pat.isPrefixOf (c :: cs) then (c :: cs).drop pat.length
    else c :: removeFirstSub pat cs

/-- Lift of `s.includes(pat)` to `String`. -/
def hasSubstr (s pat : String) : Bool := listContainsSub pat.data s.data

/-- Lift of `s.replace(pat, "")` to `String`. -/
def replaceFirst (s pat : String) : String :=
  String.mk (removeFirstSub pat.data s.data)

/-! Provider catalog data model (`lmi-providers.json` entries).

A raw catalog entry as parsed from `lmi-providers.json`.  `base_url` and
`env_key` may be absent (JS `undefined`); `requires_openai_auth` may be
absent, in which case `convertToRustFormat` defaults it with `|| false`. -/

structure LMIProvider where
  name : String
  base_url : Option String
  env_key : Option String
  wire_api : String
  requires_openai_auth : Option Bool
deriving DecidableEq

/-- The `providers` mapping of the catalog file: a JS object, i.e. a
finite map from provider keys to entries, in insertion order. -/
abbrev Catalog := List (String × LMIProvider)

/-- The canonical per-provider record handed to the Rust side.  The
source (`convertToRustFormat`) additionally sets `query_params`,
`http_headers`, `env_http_headers`, `request_max_retries`,
`stream_max_retries` and `stream_idle_timeout_ms`, all constantly
`null`; no claim concerns them and they are omitted from the record. -/
structure ModelProviderInfo where
  name : String
  base_url : Option String
  env_key : Option String
  env_key_instructions : String
  wire_api : String
  requires_openai_auth : Bool
deriving DecidableEq

/-- The static hint table of `getEnvKeyInstructions` (provider key to
credential-acquisition instruction string), verbatim from the source. -/
def envKeyInstructionTable : List (String × String) :=
  [("openai", "Get your API key from https://platform.openai.com/api-keys"),
   ("anthropic", "Get your API key from https://console.anthropic.com/"),
   ("google", "Get your API key from https://makersuite.google.com/app/apikey"),
   ("mistral", "Get your API key from https://console.mistral.ai/"),
   ("cohere", "Get your API key from https://dashboard.cohere.ai/"),
   ("huggingface", "Get your API key from https://huggingface.co/settings/tokens"),
   ("nvidia", "Get your API key from https://build.nvidia.com/"),
   ("xai", "Get your API key from https://console.x.ai/"),
   ("baidu", "Get your API key from https://console.bce.baidu.com/qianfan/"),
   ("alibaba", "Get your API key from https://dashscope.console.aliyun.com/"),
   ("tencent", "Get your API key from https://console.cloud.tencent.com/hunyuan/"),
   ("bytedance", "Get your API key from https://console.volcengine.com/ark"),
   ("iflytek", "Get your API key from https://www.xfyun.cn/"),
   ("zhipu", "Get your API key from https://open.bigmodel.cn/"),
   ("moonshot", "Get your API key from https://platform.moonshot.cn/"),
   ("deepseek", "Get your API key from https://platform.deepseek.com/"),
   ("qwen", "Get your API key from https://dashscope.console.aliyun.com/"),
   ("yi", "Get your API key from https://platform.lingyiwanwu.com/"),
   ("glm", "Get your API key from https://open.bigmodel.cn/"),
   ("claude", "Get your API key from https://console.anthropic.com/"),
   ("gemini", "Get your API key from https://makersuite.google.com/app/apikey"),
   ("gpt4", "Get your API key from https://platform.openai.com/api-keys"),
   ("gpt3", "Get your API key from https://platform.openai.com/api-keys"),
   ("llama", "Get your API key from https://llama-api.com/"),
   ("palm", "Get your API key from https://makersuite.google.com/app/apikey"),
   ("replicate", "Get your API key from https://replicate.com/account/api-tokens"),
   ("together", "Get your API key from https://api.together.xyz/settings/api-keys"),
   ("perplexity", "Get your API key from https://www.perplexity.ai/settings/api"),
   ("groq", "Get your API key from https://console.groq.com/keys"),
   ("fireworks", "Get your API key from https://fireworks.ai/"),
   ("openrouter", "Get your API key from https://openrouter.ai/keys")]

/-- JS `v || fallback` for an optional string value: falls back when the
value is absent (`undefined`) or falsy (the empty string). -/
def jsOrElse (v : Option String) (fallback : String) : String :=
  match v with
  | some s => if s = "" then fallback else s
  | none => fallback

/-- Model of `getEnvKeyInstructions(providerId, provider)`:
`instructions[providerId] || fallback` with the generic fallback built
from the entry's display name. -/
def getEnvKeyInstructions (providerId : String) (provider : LMIProvider) : String :=
  jsOrElse (envKeyInstructionTable.lookup providerId)
    ("Get your API key from the " ++ provider.name ++ " website")

/-- Model of `convertToRustFormat(providerId, lmiProvider)`. -/
def convertToRustFormat (providerId : String) (lmiProvider : LMIProvider) :
    ModelProviderInfo :=
  { name := lmiProvider.name
    base_url := lmiProvider.base_url
    env_key := lmiProvider.env_key
    env_key_instructions := getEnvKeyInstructions providerId lmiProvider
    wire_api := lmiProvider.wire_api
    requires_openai_auth := lmiProvider.requires_openai_auth.getD false }

/-- Model of `getAllProviders()`: one entry `lmi_<key>` per catalog entry, in
catalog order. -/
def getAllProviders (catalog : Catalog) : List (String × ModelProviderInfo) :=
  catalog.map (fun e => ("lmi_" ++ e.1, convertToRustFormat e.1 e.2))

/-- Model of `getProvider(providerId)`: `providerId.replace('lmi_', '')` followed
by a catalog lookup; `null` when the lookup fails. -/
def getProvider (catalog : Catalog) (providerId : String) :
    Option ModelProviderInfo :=
  match catalog.lookup (replaceFirst providerId ("lmi_")) with
  | none => none
  | some providerConfig =>
    some (convertToRustFormat (replaceFirst providerId ("lmi_")) providerConfig)

/-- Model of `listProviderIds()`. -/
def listProviderIds (catalog : Catalog) : List String :=
  catalog.map (fun e => "lmi_" ++ e.1)

/-- Model of `isLMIProvider(providerId)`: `providerId.startsWith('lmi_')`. -/
def isLMIProvider (providerId : String) : Bool :=
  "lmi_".data.isPrefixOf providerId.data

/-- Model of `getCleanProviderId(providerId)`. -/
def getCleanProviderId (providerId : String) : String :=
  if isLMIProvider providerId then replaceFirst providerId ("lmi_")
  else providerId

/-- Model of `loadLMIProviders()`: reading and parsing `lmi-providers.json` may
fail (missing file, unreadable file, invalid JSON — all thrown and
caught alike); the catch branch returns the empty provider mapping
`{ providers: {} }`. The read-and-parse outcome is the `Except` input. -/
def loadLMIProviders (readResult : Except String Catalog) : Catalog :=
  match readResult with
  | Except.ok catalog => catalog
  | Except.error _ => []

/-- JS template rendering of a boolean. -/
def boolStr : Bool → String
  | true => "true"
  | false => "false"

/-- One `[model_providers.<id>]` block of `generateTOMLConfig`, for a
provider already in Rust format.  The `if (provider.base_url)`-style
guards are JS truthiness tests: a field is emitted only when present and
non-empty. -/
def tomlBlock (providerId : String) (provider : ModelProviderInfo) : String :=
  "[model_providers." ++ providerId ++ "]\n"
    ++ "name = \"" ++ provider.name ++ "\"\n"
    ++ (match provider.base_url with
        | some u => if u = "" then ("") else ("base_url = \"") ++ u ++ "\"\n"
        | none => "")
    ++ (match provider.env_key with
        | some k => if k = "" then ("") else ("env_key = \"") ++ k ++ "\"\n"
        | none => "")
    ++ (if provider.env_key_instructions = "" then ("")
        else ("env_key_instructions = \"") ++ provider.env_key_instructions ++ "\"\n")
    ++ "wire_api = \"" ++ provider.wire_api ++ "\"\n"
    ++ "requires_openai_auth = " ++ boolStr provider.requires_openai_auth ++ "\n\n"

/-- The block concatenation loop of `generateTOMLConfig`. -/
def tomlBlocks : List (String × ModelProviderInfo) → String
  | [] => ""
  | e :: rest => tomlBlock e.1 e.2 ++ tomlBlocks rest

/-- Model of `generateTOMLConfig()`. -/
def generateTOMLConfig (catalog : Catalog) : String :=
  "[model_providers]\n\n" ++ tomlBlocks (getAllProviders catalog)

/-- The merge step of `LMICLI.addToConfig`: if the existing document
contains the marker substring `[model_providers.lmi_` it is returned
unchanged ("already configured"); otherwise the rendered configuration
is appended after a comment header.  `lmiConfig` is
`generateTOMLConfig()` of the manager's catalog. -/
def addToConfigMerge (existingConfig lmiConfig : String) : String :=
  if hasSubstr existingConfig ("[model_providers.lmi_") then existingConfig
  else existingConfig ++ "\n\n# Large Models Interface Providers\n" ++ lmiConfig

/-! Bridge Server (`model-bridge.js`).

JSON values, as produced by `JSON.parse` and consumed by
`JSON.stringify`.  Numbers are modelled as integers (nothing in the
embedded code computes with them); object fields are kept in insertion
order, as `JSON.stringify` serializes them. -/

inductive Json where
  | null : Json
  | bool (b : Bool) : Json
  | num (n : Int) : Json
  | str (s : String) : Json
  | arr (elems : List Json) : Json
  | obj (fields : List (String × Json)) : Json

/-- A thrown JS `Error`: its `message` and its `stack` trace (the stack
text is runtime-dependent and treated as opaque — note it may span
several lines). -/
structure JsError where
  message : String
  stack : String
deriving DecidableEq

/-- The result of `JSON.parse(line)` followed by the destructuring
`const \x7b type, provider, model, messages, options = \x7b\x7d \x7d = request`.
`rtype` models the `type` field: `none` when the field is absent — a
`type` bound to a non-string JSON value also never equals any of the
three case labels and behaves as the default branch does, differing only
in the text interpolated into the error message.  `options` has already
received its `\x7b\x7d` destructuring default. -/
structure RawRequest where
  rtype : Option String
  provider : Option Json
  model : Option Json
  messages : Option Json
  options : List (String × Json)

/-- The opaque provider-invocation capability (`large-models-interface`):
each call either resolves with a JSON payload or rejects with an error.
`chatCompletion` receives the object `\x7b provider, model, messages,
...options \x7d` assembled by `handleChatCompletion`; it is modelled as
receiving the pieces the code puts into that object. -/
structure LMI where
  chatCompletion : Option Json → Option Json → Option Json →
    List (String × Json) → Except JsError Json
  listModels : Option Json → Except JsError Json
  listProviders : Unit → Except JsError Json

/-- The bridge server's environment: the capability plus the behaviour
of `JSON.parse`-and-destructure on input lines (`Except.error` when the
line is not valid JSON, carrying the thrown `SyntaxError`). -/
structure BridgeEnv where
  lmi : LMI
  parse : String → Except JsError RawRequest

/-- The three response shapes the server constructs:
`\x7b success: true, data \x7d` (handler success),
`\x7b success: false, error \x7d` (recovered provider failure) and
`\x7b success: false, error, stack \x7d` (`sendError`, for server-level
failures). -/
inductive BridgeResponse where
  | ok (data : Json) : BridgeResponse
  | fail (error : String) : BridgeResponse
  | serverFail (error : String) (stack : String) : BridgeResponse

/-- Model of `handleChatCompletion(provider, model, messages, options)`. -/
def handleChatCompletion (lmi : LMI) (provider model messages : Option Json)
    (options : List (String × Json)) : BridgeResponse :=
  match lmi.chatCompletion provider model messages options with
  | Except.ok response => BridgeResponse.ok response
  | Except.error e => BridgeResponse.fail e.message

/-- Model of `handleListModels(provider)`. -/
def handleListModels (lmi : LMI) (provider : Option Json) : BridgeResponse :=
  match lmi.listModels provider with
  | Except.ok models => BridgeResponse.ok models
  | Except.error e => BridgeResponse.fail e.message

/-- Model of `handleListProviders()`. -/
def handleListProviders (lmi : LMI) : BridgeResponse :=
  match lmi.listProviders () with
  | Except.ok providers => BridgeResponse.ok providers
  | Except.error e => BridgeResponse.fail e.message

/-- JS template interpolation of a possibly-absent string. -/
def jsTemplateOptStr : Option String → String
  | some s => s
  | none => "undefined"

/-- The `Error` thrown by the default branch of `handleRequest`.  The
stack of a freshly constructed `Error` starts with its message line;
its remainder is runtime detail no claim inspects. -/
def unknownTypeError (t : Option String) : JsError :=
  { message := "Unknown request type: " ++ jsTemplateOptStr t
    stack := "Error: Unknown request type: " ++ jsTemplateOptStr t }

/-- Model of `handleRequest(request)`: the `switch (type)` dispatch.  The default
branch throws, which the caller's `catch` turns into `sendError`. -/
def handleRequest (lmi : LMI) (r : RawRequest) : Except JsError BridgeResponse :=
  if r.rtype = some ("chat_completion") then
    Except.ok (handleChatCompletion lmi r.provider r.model r.messages r.options)
  else if r.rtype = some ("list_models") then
    Except.ok (handleListModels lmi r.provider)
  else if r.rtype = some ("list_providers") then
    Except.ok (handleListProviders lmi)
  else
    Except.error (unknownTypeError r.rtype)

/-- The body of the `rl.on('line', ...)` handler for one line: parse,
dispatch, and on any thrown error produce the `sendError` response
`\x7b success: false, error, stack \x7d`.  Every line yields exactly one
response. -/
def processLine (env : BridgeEnv) (line : String) : BridgeResponse :=
  match env.parse line with
  | Except.error e => BridgeResponse.serverFail e.message e.stack
  | Except.ok request =>
    match handleRequest env.lmi request with
    | Except.ok response => response
    | Except.error e => BridgeResponse.serverFail e.message e.stack

/-- The response associated to each input line, in request order: the
server never stops after a failure response, so line `i` of the input
always yields response `i` of this list.  (The order in which responses
are physically written is modelled separately by `emissionOrder`.) -/
def runServer (env : BridgeEnv) : List String → List BridgeResponse
  | [] => []
  | line :: rest => processLine env line :: runServer env rest

/-! Emission order under the event loop.

`rl.on('line', async (line) => ...)` does NOT serialize handlers: the
readline interface invokes the callback once per line as lines arrive,
and an `async` callback returns a promise nobody awaits.  For a chunk of
`N` lines the `i`-th handler starts at step `i`, runs synchronously to
its `await` (which starts the provider call), and its response is
written only when that promise resolves.  With `lat i` the provider
latency of request `i` (in ticks from handler start), request `i`
completes at time `i + lat i`; responses are written in ascending
completion time, ties resolved in arrival order. -/

/-- Insert into a list sorted by completion time, keeping arrival order
among equal completion times. -/
def insertByTime (p : Nat × Nat) : List (Nat × Nat) → List (Nat × Nat)
  | [] => [p]
  | q :: qs => if p.1 ≤ q.1 then p :: q :: qs else q :: insertByTime p qs

/-- Stable insertion sort by completion time. -/
def sortByTime : List (Nat × Nat) → List (Nat × Nat)
  | [] => []
  | p :: ps => insertByTime p (sortByTime ps)

/-- Pairs `(completion time, arrival index)` for each request of a chunk. -/
def completionSchedule (latencies : List Nat) : List (Nat × Nat) :=
  (List.range latencies.length).map (fun i => (i + latencies.getD i 0, i))

/-- The order (by arrival index) in which the event loop writes the
responses of one chunk of requests. -/
def emissionOrder (latencies : List Nat) : List Nat :=
  (sortByTime (completionSchedule latencies)).map Prod.snd

/-- The output stream contents: the per-request responses of `runServer`
written in event-loop emission order. -/
def serverEmits (env : BridgeEnv) (lines : List String) (latencies : List Nat) :
    List BridgeResponse :=
  (emissionOrder latencies).map (fun i => processLine env (lines.getD i ("")))

/-! Serialization: `JSON.stringify` and the output lines.

`sendResponse` and `sendError` both do `console.log(JSON.stringify(x))`:
the serialized object followed by exactly one `\n`.  `JSON.stringify`
emits no whitespace (no indent argument is passed) and escapes every
control character occurring inside string values, per the ECMA-262
QuoteJSONString algorithm. -/

/-- Lower-case hexadecimal digit, for `\uNNNN` escapes. -/
def hexDigit (n : Nat) : Char :=
  if n < 10 then Char.ofNat (48 + n) else Char.ofNat (87 + n)

/-- ECMA-262 QuoteJSONString escaping of one character: two-character
escapes for quote, backslash, backspace, tab, newline, form feed and
carriage return; `\u00NN` for the remaining control characters; all
other characters pass through.  (Lean `Char` excludes unpaired
surrogates, so the surrogate branch of the algorithm is vacuous.) -/
def escapeChar (c : Char) : List Char :=
  if c = '"' then ['\\', '"']
  else if c = '\\' then ['\\', '\\']
  else if c = '\x08' then ['\\', 'b']
  else if c = '\x09' then ['\\', 't']
  else if c = '\x0a' then ['\\', 'n']
  else if c = '\x0c' then ['\\', 'f']
  else if c = '\x0d' then ['\\', 'r']
  else if c.toNat < 32 then
    ['\\', 'u', '0', '0', hexDigit (c.toNat / 16), hexDigit (c.toNat % 16)]
  else [c]

/-- QuoteJSONString: the escaped characters between double quotes. -/
def quoteJsonString (s : String) : String :=
  String.mk ('"' :: (s.data.map escapeChar).flatten ++ ['"'])

/-- Decimal digits of a natural number, most significant first. -/
def natDigits (n : Nat) : List Char :=
  if h : n < 10 then [Char.ofNat (48 + n)]
  else natDigits (n / 10) ++ [Char.ofNat (48 + n % 10)]
  decreasing_by exact Nat.div_lt_self (by omega) (by omega)

/-- Decimal rendering of an integer JSON number. -/
def intChars (n : Int) : List Char :=
  if n < 0 then '-' :: natDigits n.natAbs else natDigits n.natAbs

mutual

/-- Model of `JSON.stringify` (no indentation). -/
def serializeJson : Json → String
  | Json.null => "null"
  | Json.bool true => "true"
  | Json.bool false => "false"
  | Json.num n => String.mk (intChars n)
  | Json.str s => quoteJsonString s
  | Json.arr elems => "[" ++ serializeArr elems ++ "]"
  | Json.obj fields => "\x7b" ++ serializeObj fields ++ "\x7d"

/-- Comma-separated array elements. -/
def serializeArr : List Json → String
  | [] => ""
  | [x] => serializeJson x
  | x :: y :: rest => serializeJson x ++ "," ++ serializeArr (y :: rest)

/-- Comma-separated object members, each a quoted key, a colon and a value. -/
def serializeObj : List (String × Json) → String
  | [] => ""
  | [f] => quoteJsonString f.1 ++ ":" ++ serializeJson f.2
  | f :: g :: rest =>
    quoteJsonString f.1 ++ ":" ++ serializeJson f.2 ++ "," ++ serializeObj (g :: rest)

end

/-- The JSON object each response shape serializes to, fields in the
order the object literals list them. -/
def responseJson : BridgeResponse → Json
  | BridgeResponse.ok data =>
    Json.obj [("success", Json.bool true), ("data", data)]
  | BridgeResponse.fail error =>
    Json.obj [("success", Json.bool false), ("error", Json.str error)]
  | BridgeResponse.serverFail error stack =>
    Json.obj [("success", Json.bool false), ("error", Json.str error),
              ("stack", Json.str stack)]

/-- The bytes `sendResponse`/`sendError` write for one response:
`console.log(JSON.stringify(response))` — the serialization plus one
terminating newline. -/
def sendLine (r : BridgeResponse) : String :=
  serializeJson (responseJson r) ++ "\n"

/-! Helper lemmas about strings and the substring utilities. -/

theorem strData_append (a b : String) : (a ++ b).data = a.data ++ b.data := by
  cases a; cases b; rfl

theorem strMk_data (s : String) : String.mk s.data = s := by
  cases s; rfl

theorem strData_inj {a b : String} (h : a.data = b.data) : a = b := by
  cases a; cases b; exact congrArg String.mk h

theorem isPrefixOf_append_self (p z : List Char) : p.isPrefixOf (p ++ z) = true := by
  induction p with
  | nil => simp [List.isPrefixOf]
  | cons c cs ih => simp [List.isPrefixOf, ih]

theorem listContainsSub_of_isPrefixOf {pat s : List Char}
    (h : pat.isPrefixOf s = true) : listContainsSub pat s = true := by
  cases s with
  | nil =>
    cases pat with
    | nil => rfl
    | cons c cs => simp [List.isPrefixOf] at h
  | cons c cs => simp [listContainsSub, h]

theorem listContainsSub_append_right {pat ys : List Char}
    (h : listContainsSub pat ys = true) (xs : List Char) :
    listContainsSub pat (xs ++ ys) = true := by
  induction xs with
  | nil => simpa using h
  | cons c cs ih => simp [listContainsSub, ih]

theorem listContainsSub_middle (xs pat zs : List Char) :
    listContainsSub pat (xs ++ (pat ++ zs)) = true :=
  listContainsSub_append_right
    (listContainsSub_of_isPrefixOf (isPrefixOf_append_self pat zs)) xs

theorem removeFirstSub_of_isPrefixOf {pat s : List Char} (hne : pat ≠ [])
    (h : pat.isPrefixOf s = true) : removeFirstSub pat s = s.drop pat.length := by
  cases s with
  | nil =>
    cases pat with
    | nil => cases hne rfl
    | cons c cs => simp [List.isPrefixOf] at h
  | cons c cs => simp [removeFirstSub, h]

theorem removeFirstSub_append_self (pat z : List Char) (hne : pat ≠ []) :
    removeFirstSub pat (pat ++ z) = z := by
  rw [removeFirstSub_of_isPrefixOf hne (isPrefixOf_append_self pat z)]
  exact List.drop_left pat z

theorem removeFirstSub_of_not_contains {pat s : List Char}
    (h : listContainsSub pat s = false) : removeFirstSub pat s = s := by
  induction s with
  | nil => rfl
  | cons c cs ih =>
    rw [listContainsSub, Bool.or_eq_false_iff] at h
    rw [removeFirstSub, if_neg (by simp [h.1]), ih h.2]

theorem replaceFirst_lmi_append (k : String) :
    replaceFirst ("lmi_" ++ k) ("lmi_") = k := by
  unfold replaceFirst
  rw [strData_append]
  rw [show ("lmi_" : String).data ++ k.data = "lmi_".data ++ k.data from rfl]
  rw [removeFirstSub_append_self _ _ (by decide)]

theorem replaceFirst_of_not_hasSubstr {s pat : String}
    (h : hasSubstr s pat = false) : replaceFirst s pat = s := by
  unfold hasSubstr at h
  unfold replaceFirst
  rw [removeFirstSub_of_not_contains h]

theorem strAppend_left_cancel {p a b : String} (h : p ++ a = p ++ b) : a = b := by
  apply strData_inj
  have h2 := congrArg String.data h
  rw [strData_append, strData_append] at h2
  exact List.append_cancel_left h2

theorem strAppend_ne_empty_of_right {b : String} (hb : b ≠ "") (a : String) :
    a ++ b ≠ "" := by
  intro h
  apply hb
  apply strData_inj
  have h2 := congrArg String.data h
  rw [strData_append] at h2
  exact (List.append_eq_nil.mp h2).2

theorem lookup_val_ne_empty :
    ∀ (l : List (String × String)), (∀ p ∈ l, p.2 ≠ "") →
      ∀ k s, l.lookup k = some s → s ≠ "" := by
  intro l
  induction l with
  | nil => intro _ k s hs; simp [List.lookup] at hs
  | cons a rest ih =>
    intro hall k s hs
    rw [List.lookup] at hs
    cases hk : (k == a.1) with
    | true =>
      rw [hk] at hs
      simp at hs
      rw [← hs]
      exact hall a (by simp)
    | false =>
      rw [hk] at hs
      simp at hs
      exact ih (fun p hp => hall p (by simp [hp])) k s hs

/-! Demo fixtures used by witnesses and counterexamples. -/

/-- Demo catalog entry shaped like the `openai` entry of
`lmi-providers.json` documented in `LMI_INTEGRATION.md`. -/
def demoEntry : LMIProvider :=
  { name := "iEchor"
    base_url := some ("https://api.openai.com/v1")
    env_key := some ("OPENAI_API_KEY")
    wire_api := "lmi_bridge"
    requires_openai_auth := some false }

/-- Demo entry for a provider key absent from the hint table. -/
def demoEntry2 : LMIProvider :=
  { name := "Ollama"
    base_url := some ("http://localhost:11434")
    env_key := none
    wire_api := "lmi_bridge"
    requires_openai_auth := none }

/-- One-entry demo catalog. -/
def demoCatalog : Catalog := [("openai", demoEntry)]

/-- Two-entry demo catalog with distinct keys. -/
def demoCatalog2 : Catalog := [("openai", demoEntry), ("ollama", demoEntry2)]

/-- Two-entry catalog whose entries carry different `wire_api` values. -/
def wireCatalog : Catalog :=
  [("aprov", { name := "A", base_url := none, env_key := none,
               wire_api := "protoA", requires_openai_auth := none }),
   ("bprov", { name := "B", base_url := none, env_key := none,
               wire_api := "protoB", requires_openai_auth := none })]

/-! Claim theorems for the Provider Registry. -/

/-- C5: for every catalog (whose keys, being JS object keys, are
distinct), `getAllProviders` produces exactly one config per entry —
none dropped or merged — the id of the config for key `k` is the
concatenation `"lmi_" ++ k`, and the produced ids are pairwise
distinct. -/
theorem claim5_derive_complete (catalog : Catalog)
    (hkeys : (catalog.map Prod.fst).Nodup) :
    (getAllProviders catalog).length = catalog.length ∧
    (getAllProviders catalog).map Prod.fst = catalog.map (fun e => "lmi_" ++ e.1) ∧
    ((getAllProviders catalog).map Prod.fst).Nodup := by
  refine ⟨by simp [getAllProviders], by simp [getAllProviders], ?_⟩
  have hmap : (getAllProviders catalog).map Prod.fst
      = (catalog.map Prod.fst).map (fun k => "lmi_" ++ k) := by
    simp [getAllProviders, List.map_map]
  rw [hmap]
  exact List.Nodup.map (fun a b h => strAppend_left_cancel h) hkeys

/-- Witness for C5 at a concrete two-entry catalog. -/
theorem claim5_witness :
    (demoCatalog2.map Prod.fst).Nodup ∧
    (getAllProviders demoCatalog2).length = 2 ∧
    ((getAllProviders demoCatalog2).map Prod.fst).Nodup := by
  have h := claim5_derive_complete demoCatalog2 (by decide)
  exact ⟨by decide, h.1, h.2.2⟩

/-- C8: `getEnvKeyInstructions` never fails and never returns the empty
string: it returns the cataloged instruction string for keys in the hint
table and the generic fallback built from the entry's display name
otherwise. -/
theorem claim8_hint_total (providerId : String) (provider : LMIProvider) :
    getEnvKeyInstructions providerId provider ≠ "" ∧
    (∀ s, envKeyInstructionTable.lookup providerId = some s →
      getEnvKeyInstructions providerId provider = s) ∧
    (envKeyInstructionTable.lookup providerId = none →
      getEnvKeyInstructions providerId provider
        = "Get your API key from the " ++ provider.name ++ " website") := by
  have htab : ∀ p ∈ envKeyInstructionTable, p.2 ≠ "" := by decide
  cases h : envKeyInstructionTable.lookup providerId with
  | none =>
    have he : getEnvKeyInstructions providerId provider
        = "Get your API key from the " ++ provider.name ++ " website" := by
      unfold getEnvKeyInstructions jsOrElse
      rw [h]
    refine ⟨?_, ?_, fun _ => he⟩
    · rw [he]
      exact strAppend_ne_empty_of_right (by decide) _
    · intro s hs
      cases hs
  | some s =>
    have hsne : s ≠ "" := lookup_val_ne_empty envKeyInstructionTable htab providerId s h
    have he : getEnvKeyInstructions providerId provider = s := by
      unfold getEnvKeyInstructions jsOrElse
      rw [h]
      simp [hsne]
    refine ⟨?_, ?_, ?_⟩
    · rw [he]; exact hsne
    · intro s' hs'
      cases hs'
      exact he
    · intro hnone
      cases hnone

/-- Witness for C8: a key present in the hint table and a key absent
from it. -/
theorem claim8_witness :
    getEnvKeyInstructions ("openai") demoEntry
      = "Get your API key from https://platform.openai.com/api-keys" ∧
    getEnvKeyInstructions ("ollama") demoEntry2
      = "Get your API key from the Ollama website" ∧
    getEnvKeyInstructions ("ollama") demoEntry2 ≠ "" := by
  refine ⟨?_, ?_, (claim8_hint_total ("ollama") demoEntry2).1⟩
  · exact (claim8_hint_total ("openai") demoEntry).2.1 _ (by decide)
  · have h := (claim8_hint_total ("ollama") demoEntry2).2.2 (by decide)
    rw [h]
    rfl

/-- C9: when reading or parsing the catalog file fails (missing file,
unreadable file, invalid JSON — all thrown and caught alike),
construction still succeeds with the empty provider mapping, and every
registry operation is the corresponding total function of that empty
mapping: `getAllProviders` is the empty mapping, `listProviderIds` is
the empty list, and `generateTOMLConfig` is just the
`[model_providers]` header. -/
theorem claim9_failed_load_empty_registry (err : String) :
    loadLMIProviders (Except.error err) = [] ∧
    getAllProviders (loadLMIProviders (Except.error err)) = [] ∧
    listProviderIds (loadLMIProviders (Except.error err)) = [] ∧
    generateTOMLConfig (loadLMIProviders (Except.error err))
      = "[model_providers]\n\n" :=
  ⟨rfl, rfl, rfl, rfl⟩

/-- C2 counterexample: `getProvider` does NOT return `null` for every id
lacking the `lmi_` prefix — `providerId.replace('lmi_', '')` is a no-op
on `"openai"`, whose suffix-free text is itself a catalog key, so the
lookup succeeds even though `"openai"` does not start with `lmi_`. -/
theorem claim2_counterexample :
    isLMIProvider ("openai") = false ∧
    (getProvider demoCatalog ("openai")).isSome = true := by
  constructor
  · decide
  · rfl

/-- C2 as amended: `getProvider` removes the first occurrence of the
substring `lmi_` from the id (a no-op when the substring is absent) and
looks the remainder up in the catalog; every `lmi_`-prefixed id resolves
exactly as the claim states, the result is `none` exactly when the
cleaned id is not a catalog key, but an id without the substring whose
text is itself a catalog key also resolves (instead of yielding
`NotFound`). -/
theorem claim2_getProvider_amended (catalog : Catalog) (k id : String) :
    (∀ p, catalog.lookup k = some p →
      getProvider catalog ("lmi_" ++ k) = some (convertToRustFormat k p)) ∧
    (hasSubstr id ("lmi_") = false →
      getProvider catalog id
        = Option.map (fun p => convertToRustFormat id p) (catalog.lookup id)) ∧
    ((getProvider catalog id).isNone
      ↔ (catalog.lookup (replaceFirst id ("lmi_"))).isNone) := by
  refine ⟨?_, ?_, ?_⟩
  · intro p hp
    unfold getProvider
    rw [replaceFirst_lmi_append, hp]
  · intro hno
    unfold getProvider
    rw [replaceFirst_of_not_hasSubstr hno]
    cases hl : catalog.lookup id <;> rfl
  · unfold getProvider
    cases hl : catalog.lookup (replaceFirst id ("lmi_")) <;> simp

/-- Witness for the amended C2: the `lmi_`-prefixed demo id resolves to
the derived config, and the unprefixed id `"openai"` resolves as well
because the substring removal is a no-op on it. -/
theorem claim2_witness :
    getProvider demoCatalog ("lmi_openai")
      = some (convertToRustFormat ("openai") demoEntry) ∧
    getProvider demoCatalog ("openai")
      = Option.map (fun p => convertToRustFormat ("openai") p)
          (demoCatalog.lookup ("openai")) := by
  constructor
  · have h := (claim2_getProvider_amended demoCatalog ("openai") "x").1 demoEntry (by decide)
    simpa using h
  · exact (claim2_getProvider_amended demoCatalog ("x") "openai").2.1 (by decide)

/-- C6 counterexample: the derived `wire_api` is copied from each
catalog entry, so a catalog whose entries carry different `wire_api`
values yields configs with two different wire-protocol tags — the field
is not a constant of the registry. -/
theorem claim6_counterexample :
    (getAllProviders wireCatalog).map (fun e => e.2.wire_api)
      = ["protoA", "protoB"] ∧
    ("protoA" : String) ≠ "protoB" ∧
    ¬ (∀ c ∈ getAllProviders wireCatalog, c.2.wire_api = "lmi_bridge") := by
  refine ⟨by decide, by decide, by decide⟩

/-- C6 as amended: `convertToRustFormat` copies the `wire_api` field of
the individual catalog entry into the derived config; consequently all
derived configs carry the fixed tag `"lmi_bridge"` exactly when every
entry of the catalog carries it (as every entry of the shipped catalog
does). -/
theorem claim6_wire_api_amended (catalog : Catalog) :
    ((getAllProviders catalog).map (fun e => e.2.wire_api)
      = catalog.map (fun e => e.2.wire_api)) ∧
    ((∀ e ∈ catalog, e.2.wire_api = "lmi_bridge") →
      ∀ c ∈ getAllProviders catalog, c.2.wire_api = "lmi_bridge") := by
  constructor
  · simp [getAllProviders, List.map_map]
    intro a b _
    rfl
  · intro hall c hc
    unfold getAllProviders at hc
    rcases List.mem_map.mp hc with ⟨e, he, rfl⟩
    exact hall e he

/-- Witness for the amended C6 at a concrete catalog whose entries all
carry `wire_api = "lmi_bridge"`. -/
theorem claim6_witness :
    ∀ c ∈ getAllProviders demoCatalog2, c.2.wire_api = "lmi_bridge" :=
  (claim6_wire_api_amended demoCatalog2).2 (by decide)

/-! Claim theorems for the Config Emitter merge step. -/

theorem strAppend_assoc (a b c : String) : (a ++ b) ++ c = a ++ (b ++ c) := by
  apply strData_inj
  rw [strData_append, strData_append, strData_append, strData_append,
    List.append_assoc]

theorem hasSubstr_append_right {z p : String} (h : hasSubstr z p = true)
    (a : String) : hasSubstr (a ++ z) p = true := by
  unfold hasSubstr at h ⊢
  rw [strData_append]
  exact listContainsSub_append_right h a.data

theorem hasSubstr_append_self (p z : String) : hasSubstr (p ++ z) p = true := by
  unfold hasSubstr
  rw [strData_append]
  exact listContainsSub_of_isPrefixOf (isPrefixOf_append_self p.data z.data)

theorem hasSubstr_tomlBlock_marker (k : String) (p : ModelProviderInfo)
    (t : String) :
    hasSubstr (tomlBlock ("lmi_" ++ k) p ++ t) ("[model_providers.lmi_") = true := by
  rw [show ("[model_providers.lmi_" : String) = "[model_providers." ++ "lmi_" by decide]
  unfold tomlBlock
  simp only [strAppend_assoc]
  rw [← strAppend_assoc]
  exact hasSubstr_append_self _ _

theorem generateTOMLConfig_contains_marker (e : String × LMIProvider)
    (rest : Catalog) :
    hasSubstr (generateTOMLConfig (e :: rest)) ("[model_providers.lmi_") = true := by
  show hasSubstr
    ("[model_providers]\n\n" ++ tomlBlocks (getAllProviders (e :: rest))) _ = true
  apply hasSubstr_append_right
  show hasSubstr
    (tomlBlock ("lmi_" ++ e.1) (convertToRustFormat e.1 e.2)
      ++ tomlBlocks (getAllProviders rest)) _ = true
  exact hasSubstr_tomlBlock_marker e.1 _ _

/-- C7 counterexample: with the empty registry (the state the manager
falls back to when the catalog file is unreadable) the appended block
set is only the `[model_providers]` header, which does not contain the
`[model_providers.lmi_` marker, so a second merge appends again —
merging twice differs from merging once. -/
theorem claim7_counterexample :
    addToConfigMerge (addToConfigMerge ("") (generateTOMLConfig []))
        (generateTOMLConfig [])
      ≠ addToConfigMerge ("") (generateTOMLConfig []) := by
  decide

/-- C7 as amended: `addToConfigMerge` appends the rendered block set
when the document lacks the `[model_providers.lmi_` marker substring and
returns the document unchanged when the marker is present; and for every
NON-EMPTY registry (whose rendered block set therefore contains the
marker) merging twice from the same starting document equals merging
once.  For the empty registry the rendered output has no marker and the
idempotence fails, as the counterexample shows. -/
theorem claim7_merge_amended (catalog : Catalog) (doc : String)
    (hne : catalog ≠ []) :
    (hasSubstr doc ("[model_providers.lmi_") = true →
      addToConfigMerge doc (generateTOMLConfig catalog) = doc) ∧
    (hasSubstr doc ("[model_providers.lmi_") = false →
      addToConfigMerge doc (generateTOMLConfig catalog)
        = doc ++ "\n\n# Large Models Interface Providers\n"
            ++ generateTOMLConfig catalog) ∧
    addToConfigMerge (addToConfigMerge doc (generateTOMLConfig catalog))
        (generateTOMLConfig catalog)
      = addToConfigMerge doc (generateTOMLConfig catalog) := by
  obtain ⟨e, rest, rfl⟩ : ∃ e rest, catalog = e :: rest := by
    cases catalog with
    | nil => cases hne rfl
    | cons e rest => exact ⟨e, rest, rfl⟩
  refine ⟨?_, ?_, ?_⟩
  · intro h
    unfold addToConfigMerge
    rw [if_pos h]
  · intro h
    unfold addToConfigMerge
    rw [if_neg (by simp [h])]
  · by_cases h : hasSubstr doc ("[model_providers.lmi_") = true
    · have h1 : addToConfigMerge doc (generateTOMLConfig (e :: rest)) = doc := by
        unfold addToConfigMerge
        rw [if_pos h]
      rw [h1]
      exact h1
    · have h1 : addToConfigMerge doc (generateTOMLConfig (e :: rest))
          = doc ++ "\n\n# Large Models Interface Providers\n"
              ++ generateTOMLConfig (e :: rest) := by
        unfold addToConfigMerge
        rw [if_neg h]
      rw [h1]
      have hmark : hasSubstr
          (doc ++ "\n\n# Large Models Interface Providers\n"
            ++ generateTOMLConfig (e :: rest)) ("[model_providers.lmi_") = true :=
        hasSubstr_append_right (generateTOMLConfig_contains_marker e rest) _
      unfold addToConfigMerge
      rw [if_pos hmark]

/-- Witness for the amended C7: merging twice into an empty document
with a concrete non-empty registry equals merging once. -/
theorem claim7_witness :
    addToConfigMerge (addToConfigMerge ("") (generateTOMLConfig demoCatalog))
        (generateTOMLConfig demoCatalog)
      = addToConfigMerge ("") (generateTOMLConfig demoCatalog) :=
  (claim7_merge_amended demoCatalog ("") (by decide)).2.2

/-! Claim theorems for the Bridge Server loop. -/

/-- Value of the `success` field each response shape serializes with. -/
def responseSuccess : BridgeResponse → Bool
  | BridgeResponse.ok _ => true
  | BridgeResponse.fail _ => false
  | BridgeResponse.serverFail _ _ => false

theorem processLine_eq_error {env : BridgeEnv} {line : String} {e : JsError}
    (h : env.parse line = Except.error e) :
    processLine env line = BridgeResponse.serverFail e.message e.stack := by
  unfold processLine
  rw [h]

theorem processLine_eq_ok {env : BridgeEnv} {line : String} {req : RawRequest}
    (h : env.parse line = Except.ok req) :
    processLine env line
      = (match handleRequest env.lmi req with
        | Except.ok response => response
        | Except.error e => BridgeResponse.serverFail e.message e.stack) := by
  unfold processLine
  rw [h]

theorem handleRequest_chat {lmi : LMI} {req : RawRequest}
    (h : req.rtype = some ("chat_completion")) :
    handleRequest lmi req
      = Except.ok (handleChatCompletion lmi req.provider req.model
          req.messages req.options) := by
  unfold handleRequest
  rw [if_pos h]

theorem handleRequest_listModels {lmi : LMI} {req : RawRequest}
    (h : req.rtype = some ("list_models")) :
    handleRequest lmi req = Except.ok (handleListModels lmi req.provider) := by
  unfold handleRequest
  rw [if_neg (by simp [h]), if_pos h]

theorem handleRequest_listProviders {lmi : LMI} {req : RawRequest}
    (h : req.rtype = some ("list_providers")) :
    handleRequest lmi req = Except.ok (handleListProviders lmi) := by
  unfold handleRequest
  rw [if_neg (by simp [h]), if_neg (by simp [h]), if_pos h]

theorem handleRequest_unknown {lmi : LMI} {req : RawRequest}
    (h1 : req.rtype ≠ some ("chat_completion"))
    (h2 : req.rtype ≠ some ("list_models"))
    (h3 : req.rtype ≠ some ("list_providers")) :
    handleRequest lmi req = Except.error (unknownTypeError req.rtype) := by
  unfold handleRequest
  rw [if_neg h1, if_neg h2, if_neg h3]

/-- An input line the server must recover from: either `JSON.parse`
throws on it, or it parses to a request whose `type` is none of the
three dispatchable values. -/
def badLine (env : BridgeEnv) (line : String) : Prop :=
  (∃ e, env.parse line = Except.error e) ∨
  (∃ req, env.parse line = Except.ok req ∧
    req.rtype ≠ some ("chat_completion") ∧
    req.rtype ≠ some ("list_models") ∧
    req.rtype ≠ some ("list_providers"))

/-! Demo bridge environment fixtures. -/

/-- Demo provider-invocation capability whose calls all succeed with
distinguishable payloads. -/
def demoLMI : LMI :=
  { chatCompletion := fun _ _ _ _ => Except.ok (Json.str ("chat-reply"))
    listModels := fun _ => Except.ok (Json.str ("models-reply"))
    listProviders := fun _ => Except.ok (Json.str ("providers-reply")) }

/-- Demo input line carrying a `list_models` request. -/
def lineListModels : String :=
  "\x7b\"type\":\"list_models\",\"provider\":\"openai\"\x7d"

/-- Demo input line carrying a `list_providers` request. -/
def lineListProviders : String := "\x7b\"type\":\"list_providers\"\x7d"

/-- Demo input line carrying an unknown request type. -/
def lineUnknownType : String := "\x7b\"type\":\"frobnicate\"\x7d"

/-- Demo parse behaviour: the three demo lines parse to their requests;
every other line is treated as invalid JSON and throws a syntax
error. -/
def demoParse : String → Except JsError RawRequest := fun line =>
  if line = lineListModels then
    Except.ok { rtype := some ("list_models")
                provider := some (Json.str ("openai"))
                model := none, messages := none, options := [] }
  else if line = lineListProviders then
    Except.ok { rtype := some ("list_providers")
                provider := none, model := none, messages := none, options := [] }
  else if line = lineUnknownType then
    Except.ok { rtype := some ("frobnicate")
                provider := none, model := none, messages := none, options := [] }
  else
    Except.error { message := "Unexpected token"
                   stack := "SyntaxError: Unexpected token" }

/-- Demo bridge environment. -/
def demoEnv : BridgeEnv := { lmi := demoLMI, parse := demoParse }

/-- C3: for every input line that is not valid JSON, and for every
parsed request whose `type` is not one of the three dispatchable
values, the server emits exactly one `sendError` response — success
field `false`, carrying an error string — does not terminate, and
processes the remaining input lines normally. -/
theorem claim3_bad_line_recovered (env : BridgeEnv) (line : String)
    (rest : List String) (h : badLine env line) :
    (∃ msg stack, processLine env line = BridgeResponse.serverFail msg stack ∧
      responseJson (processLine env line)
        = Json.obj [("success", Json.bool false), ("error", Json.str msg),
            ("stack", Json.str stack)]) ∧
    responseSuccess (processLine env line) = false ∧
    runServer env (line :: rest) = processLine env line :: runServer env rest := by
  have hPL : ∃ msg stack,
      processLine env line = BridgeResponse.serverFail msg stack := by
    rcases h with ⟨e, he⟩ | ⟨req, hreq, h1, h2, h3⟩
    · exact ⟨e.message, e.stack, processLine_eq_error he⟩
    · refine ⟨(unknownTypeError req.rtype).message,
        (unknownTypeError req.rtype).stack, ?_⟩
      rw [processLine_eq_ok hreq, handleRequest_unknown h1 h2 h3]
  rcases hPL with ⟨m, st, hms⟩
  refine ⟨⟨m, st, hms, ?_⟩, ?_, rfl⟩
  · rw [hms]
    rfl
  · rw [hms]
    rfl

/-- Witness for C3: a non-JSON line and an unknown-type line, each
recovered with a failure response, with the rest of the input processed
normally. -/
theorem claim3_witness :
    responseSuccess (processLine demoEnv ("not json")) = false ∧
    responseSuccess (processLine demoEnv lineUnknownType) = false ∧
    runServer demoEnv ["not json", lineListProviders]
      = processLine demoEnv ("not json")
          :: runServer demoEnv [lineListProviders] := by
  refine ⟨?_, ?_, ?_⟩
  · exact (claim3_bad_line_recovered demoEnv ("not json") []
      (Or.inl ⟨_, rfl⟩)).2.1
  · exact (claim3_bad_line_recovered demoEnv lineUnknownType []
      (Or.inr ⟨_, rfl, by decide, by decide, by decide⟩)).2.1
  · exact (claim3_bad_line_recovered demoEnv ("not json") [lineListProviders]
      (Or.inl ⟨_, rfl⟩)).2.2

/-- C4: for each of the three request types, a successful capability
call with result `r` is emitted as the response object
`(success true, data r)`; a failed capability call whose error carries
message `m` is emitted as `(success false, error m)`; and after a
failure the server continues serving the remaining lines. -/
theorem claim4_dispatch_wrapping (env : BridgeEnv) (line : String)
    (rest : List String) (req : RawRequest)
    (hp : env.parse line = Except.ok req) :
    (req.rtype = some ("chat_completion") →
      (∀ r, env.lmi.chatCompletion req.provider req.model req.messages req.options
          = Except.ok r →
        responseJson (processLine env line)
          = Json.obj [("success", Json.bool true), ("data", r)]) ∧
      (∀ e, env.lmi.chatCompletion req.provider req.model req.messages req.options
          = Except.error e →
        responseJson (processLine env line)
          = Json.obj [("success", Json.bool false),
              ("error", Json.str e.message)])) ∧
    (req.rtype = some ("list_models") →
      (∀ r, env.lmi.listModels req.provider = Except.ok r →
        responseJson (processLine env line)
          = Json.obj [("success", Json.bool true), ("data", r)]) ∧
      (∀ e, env.lmi.listModels req.provider = Except.error e →
        responseJson (processLine env line)
          = Json.obj [("success", Json.bool false),
              ("error", Json.str e.message)])) ∧
    (req.rtype = some ("list_providers") →
      (∀ r, env.lmi.listProviders () = Except.ok r →
        responseJson (processLine env line)
          = Json.obj [("success", Json.bool true), ("data", r)]) ∧
      (∀ e, env.lmi.listProviders () = Except.error e →
        responseJson (processLine env line)
          = Json.obj [("success", Json.bool false),
              ("error", Json.str e.message)])) ∧
    runServer env (line :: rest) = processLine env line :: runServer env rest := by
  refine ⟨?_, ?_, ?_, rfl⟩
  · intro ht
    constructor
    · intro r hr
      rw [processLine_eq_ok hp, handleRequest_chat ht]
      unfold handleChatCompletion
      rw [hr]
      rfl
    · intro e he
      rw [processLine_eq_ok hp, handleRequest_chat ht]
      unfold handleChatCompletion
      rw [he]
      rfl
  · intro ht
    constructor
    · intro r hr
      rw [processLine_eq_ok hp, handleRequest_listModels ht]
      unfold handleListModels
      rw [hr]
      rfl
    · intro e he
      rw [processLine_eq_ok hp, handleRequest_listModels ht]
      unfold handleListModels
      rw [he]
      rfl
  · intro ht
    constructor
    · intro r hr
      rw [processLine_eq_ok hp, handleRequest_listProviders ht]
      unfold handleListProviders
      rw [hr]
      rfl
    · intro e he
      rw [processLine_eq_ok hp, handleRequest_listProviders ht]
      unfold handleListProviders
      rw [he]
      rfl

/-- Witness for C4: a successful `list_models` dispatch in the demo
environment, and a failing `list_providers` dispatch in an environment
whose capability rejects the call. -/
theorem claim4_witness :
    responseJson (processLine demoEnv lineListModels)
      = Json.obj [("success", Json.bool true),
          ("data", Json.str ("models-reply"))] :=
  ((claim4_dispatch_wrapping demoEnv lineListModels [] _ rfl).2.1 rfl).1 _ rfl

/-- C1 (refuted — code bug): `rl.on('line', async ...)` does not
serialize handlers, so with two requests arriving in one chunk and
provider latencies 2 and 0 ticks, the event loop writes the response to
the second request first.  `runServer` records the request-order
pairing the protocol needs; `serverEmits` is what the stream actually
carries: the same two responses, swapped.  The claimed order `[0, 1]`
is not the emission order. -/
theorem claim1_out_of_order_emission :
    runServer demoEnv [lineListModels, lineListProviders]
      = [BridgeResponse.ok (Json.str ("models-reply")),
         BridgeResponse.ok (Json.str ("providers-reply"))] ∧
    serverEmits demoEnv [lineListModels, lineListProviders] [2, 0]
      = [BridgeResponse.ok (Json.str ("providers-reply")),
         BridgeResponse.ok (Json.str ("models-reply"))] ∧
    emissionOrder [2, 0] = [1, 0] ∧
    emissionOrder [2, 0] ≠ [0, 1] := by
  refine ⟨rfl, rfl, rfl, by decide⟩

/-! Claim C10: every serialized response is newline-free, so each
response occupies exactly one output line. -/

theorem natDigits_ne_newline (n : Nat) : ∀ c ∈ natDigits n, c ≠ '\n' := by
  induction n using Nat.strong_induction_on with
  | _ n ih =>
    intro c hc
    rw [natDigits] at hc
    by_cases h : n < 10
    · rw [dif_pos h] at hc
      simp at hc
      subst hc
      exact (by decide : ∀ d, d < 10 → Char.ofNat (48 + d) ≠ '\n') n h
    · rw [dif_neg h] at hc
      rcases List.mem_append.mp hc with h1 | h2
      · exact ih (n / 10) (Nat.div_lt_self (by omega) (by omega)) c h1
      · simp at h2
        subst h2
        exact (by decide : ∀ d, d < 10 → Char.ofNat (48 + d) ≠ '\n')
          (n % 10) (Nat.mod_lt _ (by omega))

theorem intChars_ne_newline (n : Int) : ∀ c ∈ intChars n, c ≠ '\n' := by
  intro c hc
  unfold intChars at hc
  by_cases h : n < 0
  · rw [if_pos h] at hc
    rcases List.mem_cons.mp hc with h1 | h2
    · subst h1; decide
    · exact natDigits_ne_newline n.natAbs c h2
  · rw [if_neg h] at hc
    exact natDigits_ne_newline n.natAbs c hc

theorem hexDigit_ne_newline : ∀ k, k < 16 → hexDigit k ≠ '\n' := by decide

theorem escapeChar_ne_newline (c : Char) : ∀ c' ∈ escapeChar c, c' ≠ '\n' := by
  intro c' hc'
  unfold escapeChar at hc'
  split_ifs at hc' with h1 h2 h3 h4 h5 h6 h7 h8
  · simp at hc'; rcases hc' with rfl | rfl <;> decide
  · simp at hc'; subst hc'; decide
  · simp at hc'; rcases hc' with rfl | rfl <;> decide
  · simp at hc'; rcases hc' with rfl | rfl <;> decide
  · simp at hc'; rcases hc' with rfl | rfl <;> decide
  · simp at hc'; rcases hc' with rfl | rfl <;> decide
  · simp at hc'; rcases hc' with rfl | rfl <;> decide
  · have hx : ∀ a ∈ ['\\', 'u', '0', '0', hexDigit (c.toNat / 16),
        hexDigit (c.toNat % 16)], a ≠ '\n' := by
      intro a ha
      rcases List.mem_cons.mp ha with rfl | ha
      · decide
      rcases List.mem_cons.mp ha with rfl | ha
      · decide
      rcases List.mem_cons.mp ha with rfl | ha
      · decide
      rcases List.mem_cons.mp ha with rfl | ha
      · decide
      rcases List.mem_cons.mp ha with rfl | ha
      · exact hexDigit_ne_newline (c.toNat / 16) (by omega)
      rcases List.mem_cons.mp ha with rfl | ha
      · exact hexDigit_ne_newline (c.toNat % 16) (Nat.mod_lt _ (by omega))
      · cases ha
    exact hx c' hc'
  · simp at hc'
    subst hc'
    exact h5

theorem quoteJsonString_no_newline (s : String) :
    '\n' ∉ (quoteJsonString s).data := by
  unfold quoteJsonString
  intro hmem
  rcases List.mem_cons.mp hmem with h | h
  · exact absurd h (by decide)
  · rcases List.mem_append.mp h with h2 | h2
    · rcases List.mem_flatten.mp h2 with ⟨l, hl, hnl⟩
      rcases List.mem_map.mp hl with ⟨c, _, rfl⟩
      exact escapeChar_ne_newline c '\n' hnl rfl
    · exact absurd h2 (by decide)

mutual

theorem serializeJson_no_newline : ∀ j : Json, '\n' ∉ (serializeJson j).data
  | Json.null => by decide
  | Json.bool true => by decide
  | Json.bool false => by decide
  | Json.num n => by
    intro h
    exact intChars_ne_newline n '\n' h rfl
  | Json.str s => quoteJsonString_no_newline s
  | Json.arr elems => by
    have h := serializeArr_no_newline elems
    show '\n' ∉ ("[" ++ serializeArr elems ++ "]").data
    rw [strData_append, strData_append]
    intro hmem
    rcases List.mem_append.mp hmem with h1 | h2
    · rcases List.mem_append.mp h1 with h3 | h4
      · exact absurd h3 (by decide)
      · exact h h4
    · exact absurd h2 (by decide)
  | Json.obj fields => by
    have h := serializeObj_no_newline fields
    show '\n' ∉ ("\x7b" ++ serializeObj fields ++ "\x7d").data
    rw [strData_append, strData_append]
    intro hmem
    rcases List.mem_append.mp hmem with h1 | h2
    · rcases List.mem_append.mp h1 with h3 | h4
      · exact absurd h3 (by decide)
      · exact h h4
    · exact absurd h2 (by decide)

theorem serializeArr_no_newline : ∀ xs : List Json, '\n' ∉ (serializeArr xs).data
  | [] => by decide
  | [x] => serializeJson_no_newline x
  | x :: y :: rest => by
    have h1 := serializeJson_no_newline x
    have h2 := serializeArr_no_newline (y :: rest)
    show '\n' ∉ (serializeJson x ++ "," ++ serializeArr (y :: rest)).data
    rw [strData_append, strData_append]
    intro hmem
    rcases List.mem_append.mp hmem with ha | hb
    · rcases List.mem_append.mp ha with hc | hd
      · exact h1 hc
      · exact absurd hd (by decide)
    · exact h2 hb

theorem serializeObj_no_newline :
    ∀ fs : List (String × Json), '\n' ∉ (serializeObj fs).data
  | [] => by decide
  | [f] => by
    have h1 := quoteJsonString_no_newline f.1
    have h2 := serializeJson_no_newline f.2
    show '\n' ∉ (quoteJsonString f.1 ++ ":" ++ serializeJson f.2).data
    rw [strData_append, strData_append]
    intro hmem
    rcases List.mem_append.mp hmem with ha | hb
    · rcases List.mem_append.mp ha with hc | hd
      · exact h1 hc
      · exact absurd hd (by decide)
    · exact h2 hb
  | f :: g :: rest => by
    have h1 := quoteJsonString_no_newline f.1
    have h2 := serializeJson_no_newline f.2
    have h3 := serializeObj_no_newline (g :: rest)
    show '\n' ∉
      (quoteJsonString f.1 ++ ":" ++ serializeJson f.2 ++ ","
        ++ serializeObj (g :: rest)).data
    rw [strData_append, strData_append, strData_append, strData_append]
    intro hmem
    rcases List.mem_append.mp hmem with ha | hb
    · rcases List.mem_append.mp ha with hc | hd
      · rcases List.mem_append.mp hc with he | hf
        · rcases List.mem_append.mp he with hg | hh
          · exact h1 hg
          · exact absurd hh (by decide)
        · exact h2 hf
      · exact absurd hd (by decide)
    · exact h3 hb

end

/-- C10: every response the server emits — success, recovered provider
failure, or `sendError` with a (possibly multi-line) stack — serializes
to a JSON string with no embedded newline character, and the emitted
bytes are that string followed by exactly one line terminator, so each
response occupies exactly one output line. -/
theorem claim10_single_line_responses (r : BridgeResponse) :
    '\n' ∉ (serializeJson (responseJson r)).data ∧
    sendLine r = serializeJson (responseJson r) ++ "\n" ∧
    ((sendLine r).data.count '\n') = 1 := by
  have h := serializeJson_no_newline (responseJson r)
  refine ⟨h, rfl, ?_⟩
  unfold sendLine
  rw [strData_append, List.count_append, List.count_eq_zero.mpr h]
  rfl

end OpenCodex
